import Mathlib

/-!
Verification development for the token-gating Telegram bot.

The Python source is shallowly embedded: Python dicts become association
lists over `String` keys, wall-clock timestamps become `Int`, token amounts
become `Rat` (exact arithmetic in place of Python floats), and every
collaborator call that can raise is modelled as an `Except`-valued field of
an explicit environment record.  Each embedded definition mirrors one
function of the source, keeping its name where Lean allows it.
-/

namespace TokenGate

/-! Association-list model of Python `dict` with string keys. -/

/-- Lookup in a Python dict: `d.get(k)`. -/
def dictGet {α : Type} : List (String × α) → String → Option α
  | [], _ => none
  | (k, v) :: rest, key => if k = key then some v else dictGet rest key

/-- Assignment in a Python dict: `d[k] = v` (replaces an existing binding,
otherwise appends). -/
def dictSet {α : Type} : List (String × α) → String → α → List (String × α)
  | [], key, val => [(key, val)]
  | (k, v) :: rest, key, val =>
    if k = key then (key, val) :: rest else (k, v) :: dictSet rest key val

/-- The keys of a dict are pairwise distinct (true of every Python dict). -/
abbrev keysNodup {α : Type} (l : List (String × α)) : Prop :=
  (l.map Prod.fst).Nodup

/-- ASCII lowering of one character, the behaviour of Python `str.lower`
on the ASCII addresses this program compares. -/
def pyLowerChar (c : Char) : Char :=
  if 'A' ≤ c && c ≤ 'Z' then Char.ofNat (c.toNat + 32) else c

/-- Embeds Python `s.lower()` (ASCII). -/
def pyLower (s : String) : String := String.mk (s.data.map pyLowerChar)

/-! ## 3-strike rejection tracking (src/verification.py) -/

/-- One entry of `rejected_groups.json` (`track_rejection` creates it). -/
structure RejRecord where
  rejectionCount : Nat
  groupName : String
  lastAdminId : Option String
  lastAdminName : String
  firstRejection : Int
  lastRejection : Int
  blocked : Bool
deriving Repr, DecidableEq

/-- The persisted `rejected_groups.json` collection. -/
abbrev RejStore := List (String × RejRecord)

/-- Embeds `track_rejection(group_id, group_name, admin_id, admin_name)`:
increments the count (creating the record first if absent), refreshes
metadata and timestamps, sets `blocked` once the count reaches 3, persists,
and returns the stored record's blocked flag. -/
def track_rejection (store : RejStore) (gid : String)
    (gname aid aname : Option String) (now : Int) : RejStore × Bool :=
  let r0 : RejRecord :=
    match dictGet store gid with
    | some r => r
    | none =>
      { rejectionCount := 0
        groupName := gname.getD ("Group " ++ gid)
        lastAdminId := aid
        lastAdminName := aname.getD "Unknown"
        firstRejection := now
        lastRejection := now
        blocked := false }
  let r1 : RejRecord :=
    { r0 with rejectionCount := r0.rejectionCount + 1, lastRejection := now }
  let r2 : RejRecord :=
    match aid with
    | some a => { r1 with lastAdminId := some a }
    | none => r1
  let r3 : RejRecord :=
    match aname with
    | some a => { r2 with lastAdminName := a }
    | none => r2
  let r4 : RejRecord :=
    match gname with
    | some g => { r3 with groupName := g }
    | none => r3
  let r5 : RejRecord :=
    if 3 ≤ r4.rejectionCount then { r4 with blocked := true } else r4
  (dictSet store gid r5, r5.blocked)

/-- Embeds `is_group_blocked(group_id)`. -/
def is_group_blocked (store : RejStore) (gid : String) : Bool :=
  match dictGet store gid with
  | some r => r.blocked
  | none => false

/-- Embeds `get_rejection_count(group_id)`. -/
def get_rejection_count (store : RejStore) (gid : String) : Nat :=
  match dictGet store gid with
  | some r => r.rejectionCount
  | none => 0

/-- Embeds `reset_rejection_count(group_id)`: zeroes the count and clears
`blocked` when a record exists; returns the save result (modelled as
success). -/
def reset_rejection_count (store : RejStore) (gid : String) : RejStore × Bool :=
  match dictGet store gid with
  | some r =>
    (dictSet store gid { r with rejectionCount := 0, blocked := false }, true)
  | none => (store, true)

/-! ## JSON persistence layer (src/verification.py, src/database_simple.py) -/

/-- A JSON value as produced by `json.load` / `json.loads`. -/
inductive Json where
  | obj (entries : List (String × Json))
  | arr (elems : List Json)
  | str (s : String)
  | num (n : Int)
  | bool (b : Bool)
  | null

/-- True exactly when the JSON value is an object (a Python dict). -/
def Json.isObj : Json → Bool
  | .obj _ => true
  | _ => false

/-- A raised Python exception, observed only abstractly. -/
inductive PyErr where
  | err
deriving Repr, DecidableEq

/-- Environment for the persistence layer.  Every primitive that can raise
is an `Except`-valued field: `fileRead` combines `open` plus `json.load`
(`.error` = unreadable or corrupt), `dbFetch` is the row fetch of
`database_simple.load_json_from_db` (`.ok none` = no row), and the write
fields model `open`+`json.dump` respectively the database upsert. -/
structure StoreEnv where
  databaseUrl : Option String
  fileExists : String → Bool
  fileRead : String → Except PyErr Json
  fileWrite : String → Except PyErr Unit
  dbFetch : String → Except PyErr (Option Json)
  dbWrite : String → Except PyErr Unit

/-- Embeds `load_json_file(file_path)` from src/verification.py including
its dispatch to `database_simple.load_json_file` when `DATABASE_URL` is
set; every raised exception of the primitives is caught and turned into
the empty dict. -/
def load_json_file (env : StoreEnv) (path : String) : Json :=
  match env.databaseUrl with
  | some _ =>
    match env.dbFetch path with
    | .error _ => Json.obj []
    | .ok none => Json.obj []
    | .ok (some v) => v
  | none =>
    if env.fileExists path then
      match env.fileRead path with
      | .ok v => v
      | .error _ => Json.obj []
    else Json.obj []

/-- Embeds `save_json_file(file_path, data)`: `True` when the write
primitive succeeds, `False` when it raises (the exception is caught). -/
def save_json_file (env : StoreEnv) (path : String) : Bool :=
  match env.databaseUrl with
  | some _ =>
    match env.dbWrite path with
    | .ok _ => true
    | .error _ => false
  | none =>
    match env.fileWrite path with
    | .ok _ => true
    | .error _ => false

/-! ## Address validation (src/blockchain_integrations.py) -/

/-- One character of the pattern `[a-fA-F0-9]`. -/
def isHexChar (c : Char) : Bool :=
  c.isDigit || ('a' ≤ c && c ≤ 'f') || ('A' ≤ c && c ≤ 'F')

/-- Embeds `is_valid_ethereum_address(address)`: full match against
the regular expression of two literal characters `0x` followed by exactly
forty characters of the class `[a-fA-F0-9]`. -/
def is_valid_ethereum_address (s : String) : Bool :=
  match s.data with
  | '0' :: 'x' :: rest => rest.length == 40 && rest.all isHexChar
  | _ => false

/-- Modelled from the spec: the base58 alphabet (Bitcoin/Solana variant,
excluding `0`, `O`, `I`, `l`).  The source contains no base58 decoder; this
definition exists only to state what the spec asserts about the base58
chain family. -/
def BASE58_ALPHABET : List Char :=
  "123456789ABCDEFGHJKLMNPQRSTUVWXYZabcdefghijkmnopqrstuvwxyz".data

/-- Modelled from the spec: the value of one base58 digit, `none` for a
character outside the alphabet. -/
def base58Digit (c : Char) : Option Nat :=
  let i := BASE58_ALPHABET.indexOf c
  if i < BASE58_ALPHABET.length then some i else none

/-- Modelled from the spec: Horner evaluation of base58 digits onto an
accumulator, `none` when some character is not in the alphabet. -/
def base58ValueAux : List Char → Nat → Option Nat
  | [], acc => some acc
  | c :: rest, acc =>
    match base58Digit c with
    | none => none
    | some d => base58ValueAux rest (acc * 58 + d)

/-- Modelled from the spec: the big-endian integer denoted by a base58
string, `none` when some character is not in the alphabet. -/
def base58Value (l : List Char) : Option Nat := base58ValueAux l 0

/-- Count of leading `1` characters (each contributes one zero byte). -/
def countLeadingOnes : List Char → Nat
  | '1' :: rest => countLeadingOnes rest + 1
  | _ => 0

/-- Number of base-256 digits of `n` (0 for `n = 0`); the first argument
is fuel, always called with `fuel = n` which suffices since `n / 256 < n`
for positive `n`. -/
def byteLenAux : Nat → Nat → Nat
  | 0, _ => 0
  | fuel + 1, n => if n = 0 then 0 else byteLenAux fuel (n / 256) + 1

/-- Byte length of the big-endian encoding of `n`. -/
def byteLen (n : Nat) : Nat := byteLenAux n n

/-- Modelled from the spec: the number of bytes a base58 string decodes to
(leading `1`s become zero bytes, the remaining value contributes its
big-endian bytes), `none` on decode failure. -/
def base58DecodedLen (s : String) : Option Nat :=
  match base58Value s.data with
  | none => none
  | some v => some (countLeadingOnes s.data + byteLen v)

/-! ## Group configuration (written by the setup flow in src/main.py) -/

/-- One entry of `config.json`: `{chain_id, token, min_balance, verifier}`. -/
structure GroupConfig where
  chainId : String
  token : String
  minBalance : ℚ
  verifier : String
deriving Repr, DecidableEq

/-- The persisted `config.json` collection. -/
abbrev ConfigStore := List (String × GroupConfig)

/-! ## Balance verification with provider fallback
(src/blockchain_integrations.py) -/

/-- Environment for the balance chain.  `moralisCall` is the outcome of
`evm_api.token.get_wallet_token_balances` followed by the decimals
normalisation inside `get_token_balance_moralis` (`.error` = the call
raised); `etherscanCall` is the raw integer from the Etherscan REST call
(`.error` = network/JSON/int failure); `decimalsCall` is the metadata
lookup of `get_token_decimals`. -/
structure BalanceEnv where
  moralisKey : Option String
  moralisCall : Except PyErr ℚ
  etherscanKey : Option String
  etherscanCall : Except PyErr Int
  decimalsCall : Except PyErr Nat

/-- Embeds `get_token_balance_moralis(wallet, token, chain)`: any raised
exception is caught and yields `0.0`. -/
def get_token_balance_moralis (env : BalanceEnv) : ℚ :=
  match env.moralisCall with
  | .ok q => q
  | .error _ => 0

/-- Embeds `get_token_balance_etherscan(wallet, token)`: `0.0` without an
API key, the raw (un-normalised) integer balance on success, `0.0` when
the call raises. -/
def get_token_balance_etherscan (env : BalanceEnv) : ℚ :=
  match env.etherscanKey with
  | none => 0
  | some _ =>
    match env.etherscanCall with
    | .ok raw => (raw : ℚ)
    | .error _ => 0

/-- Embeds `get_token_decimals(token_address, chain_id)`: falls back to 18
when the metadata lookup raises. -/
def get_token_decimals (env : BalanceEnv) : Nat :=
  match env.decimalsCall with
  | .ok d => d
  | .error _ => 18

/-- The guard `MORALIS_API_KEY and len(MORALIS_API_KEY) > 50` of
`verify_user_balance`. -/
def moralisConfigured (env : BalanceEnv) : Bool :=
  match env.moralisKey with
  | none => false
  | some k => decide (50 < k.length)

/-- Embeds `verify_user_balance(group_config, user_address)`: Moralis is
consulted only when its key passes the length sanity check; whenever the
resulting balance is not positive the Etherscan raw balance divided by
`10 ^ decimals` is used instead; the result compares the final balance
against `min_balance`.  All collaborator exceptions are absorbed inside
the callees or by the surrounding `try`, so the embedding is total. -/
def verify_user_balance (env : BalanceEnv) (cfg : GroupConfig) : Bool :=
  let balance : ℚ := if moralisConfigured env then get_token_balance_moralis env else 0
  let balance : ℚ :=
    if balance ≤ 0 then
      get_token_balance_etherscan env / 10 ^ get_token_decimals env
    else balance
  decide (cfg.minBalance ≤ balance)

/-! ## Token transfer checking (src/blockchain_integrations.py) -/

/-- One element of the `result` list returned by
`evm_api.token.get_wallet_token_transfers`, with `value` already through
`int(...)`. -/
structure Transfer where
  value : Int
  toAddress : String
  fromAddress : String
  address : String
deriving Repr, DecidableEq

/-- Environment for `check_token_transfer_moralis`.  `currentBlock` is the
`get_date_to_block` call (already through `.get('block', 0)`), `decimals`
the metadata fetch (a raise here propagates to the outer handler), and
`transfers fromBlock toBlock` the transfer query for that block window —
`.ok none` models a malformed, non-list `result` field. -/
structure TransferEnv where
  currentBlock : Except PyErr Nat
  decimals : Except PyErr Nat
  transfers : Nat → Nat → Except PyErr (Option (List Transfer))

/-- The matching condition applied to each scanned transfer: destination
and token contract compared lowercased, and the normalised amount within
`1 / 10 ^ decimals` of exactly 1. -/
def transferQualifies (verifierAddress tokenAddress : String) (decimals : Nat)
    (t : Transfer) : Bool :=
  (pyLower t.toAddress == pyLower verifierAddress)
    && (pyLower t.address == pyLower tokenAddress)
    && decide (|(t.value : ℚ) / 10 ^ decimals - 1| ≤ 1 / 10 ^ decimals)

/-- Embeds `check_token_transfer_moralis(verifier_address, user_address,
token_address, chain)`: resolves the current block, fetches decimals,
queries transfers in the window of the last 800 blocks (`max(0, current -
800)` is Nat truncated subtraction), and returns whether some returned
transfer qualifies; every failure path returns `false`. -/
def check_token_transfer_moralis (env : TransferEnv)
    (verifierAddress tokenAddress : String) : Bool :=
  match env.currentBlock with
  | .error _ => false
  | .ok currentBlock =>
    match env.decimals with
    | .error _ => false
    | .ok decimals =>
      match env.transfers (currentBlock - 800) currentBlock with
      | .error _ => false
      | .ok none => false
      | .ok (some ts) => ts.any (transferQualifies verifierAddress tokenAddress decimals)

/-! ## User records and verification sessions (src/main.py) -/

/-- One entry of `user_data.json` for a (group, user) pair. -/
structure UserRec where
  address : String
  verified : Bool
  lastVerified : Int
  verificationTx : Bool
deriving Repr, DecidableEq

/-- `user_data.json`: group id to user id to record. -/
abbrev UserData := List (String × List (String × UserRec))

/-- An in-memory verification session (one entry of
`verification_sessions`); absent Python keys are `none`. -/
structure Session where
  groupId : String
  step : String
  address : Option String
  firstFailTime : Option Int
  lastRetry : Option Int
deriving Repr, DecidableEq

/-- The user-visible outcome of one handler step; `raisesError` marks a
code path on which the handler raises an uncaught Python exception. -/
inductive Outcome where
  | invalidAddress
  | duplicateWallet
  | noGroupConfig
  | balanceFailed
  | askTransfer
  | verifiedInvite
  | missingAddress
  | cooldownWait (secs : Int)
  | timedOut
  | notVerifiedYet (remaining : Int)
  | sessionInvalid
  | raisesError
deriving Repr, DecidableEq

/-- Result of one handler step: the outcome, the surviving session
(`none` = deleted), the persisted `user_data.json` after the step (only
`save_json_file` calls change it), and whether the transfer provider was
invoked. -/
structure StepResult where
  outcome : Outcome
  session : Option Session
  userData : UserData
  calledProvider : Bool
deriving Repr, DecidableEq

/-- The duplicate-wallet loop of `handle_dm_message`: some other user of
the group currently holds `verified=true` for the same lowercased
address. -/
def walletTakenByOther (groupUsers : List (String × UserRec))
    (userId addr : String) : Bool :=
  groupUsers.any fun p =>
    (pyLower p.2.address == pyLower addr) && (p.1 != userId) && p.2.verified

/-- The uniqueness invariant of the spec: no two distinct users of the
group hold `verified=true` records with the same lowercased address. -/
def uniqueVerifiedWallets : List (String × UserRec) → Bool
  | [] => true
  | (uid, rec) :: rest =>
    (!rec.verified
        || rest.all fun p =>
            !p.2.verified || (pyLower p.2.address != pyLower rec.address) || (p.1 == uid))
      && uniqueVerifiedWallets rest

/-- The record written on successful verification:
`{address, verified: True, last_verified: now, verification_tx: True}`. -/
def verifiedRecord (addr : String) (now : Int) : UserRec :=
  { address := addr, verified := true, lastVerified := now, verificationTx := true }

/-- Writing the verified record into `user_data` followed by
`save_json_file` (the `if group not in user_data` guard plus the nested
assignment). -/
def writeVerified (ud : UserData) (gid uid addr : String) (now : Int) : UserData :=
  dictSet ud gid (dictSet ((dictGet ud gid).getD []) uid (verifiedRecord addr now))

/-- Embeds the `awaiting_address` branch of `handle_dm_message`: validate
the submitted address, bind it to the session, reject (terminating the
session) when the wallet is already held by a different verified user of
the group, look up the group config, then run the balance check and either
advance to `awaiting_transfer` or terminate. -/
def dmAddressSubmit (benv : BalanceEnv) (config : ConfigStore) (ud : UserData)
    (userId msgText : String) (s : Session) : StepResult :=
  if !is_valid_ethereum_address msgText then
    { outcome := .invalidAddress, session := some s, userData := ud, calledProvider := false }
  else
    let s1 : Session := { s with address := some msgText, step := "checking_balance" }
    let groupUsers := (dictGet ud s.groupId).getD []
    if walletTakenByOther groupUsers userId msgText then
      { outcome := .duplicateWallet, session := none, userData := ud, calledProvider := false }
    else
      match dictGet config s.groupId with
      | none =>
        { outcome := .noGroupConfig, session := none, userData := ud, calledProvider := false }
      | some cfg =>
        if verify_user_balance benv cfg then
          { outcome := .askTransfer
            session := some { s1 with step := "awaiting_transfer" }
            userData := ud
            calledProvider := false }
        else
          { outcome := .balanceFailed, session := none, userData := ud, calledProvider := false }

/-- Embeds the `awaiting_transfer` / text `done` branch of
`handle_dm_message`: stamp `first_fail_time` if absent, load the config
(raising on a missing group), call the transfer provider (the
`check_token_transfer` fallback taken without a Moralis key is an
undefined name, hence a raise), and on success re-check the duplicate
invariant immediately before writing; on failure apply the 300-second
timeout. -/
def dmDoneTransfer (hasMoralisKey : Bool) (tenv : TransferEnv) (config : ConfigStore)
    (ud : UserData) (userId : String) (s : Session) (now : Int) : StepResult :=
  let s1 : Session := { s with firstFailTime := some (s.firstFailTime.getD now) }
  match dictGet config s.groupId with
  | none => { outcome := .raisesError, session := some s1, userData := ud, calledProvider := false }
  | some cfg =>
    if !hasMoralisKey then
      { outcome := .raisesError, session := some s1, userData := ud, calledProvider := false }
    else
      match s.address with
      | none =>
        { outcome := .raisesError, session := some s1, userData := ud, calledProvider := false }
      | some addr =>
        if check_token_transfer_moralis tenv cfg.verifier cfg.token then
          let groupUsers := (dictGet ud s.groupId).getD []
          if walletTakenByOther groupUsers userId addr then
            { outcome := .duplicateWallet, session := none, userData := ud, calledProvider := true }
          else
            { outcome := .verifiedInvite
              session := none
              userData := writeVerified ud s.groupId userId addr now
              calledProvider := true }
        else
          let elapsed := now - (s.firstFailTime.getD now)
          if elapsed > 300 then
            { outcome := .timedOut, session := none, userData := ud, calledProvider := true }
          else
            { outcome := .notVerifiedYet (300 - elapsed)
              session := some s1
              userData := ud
              calledProvider := true }

/-- Embeds the `done_transfer` callback branch of
`handle_verification_button`: stamp `first_fail_time`, force the step to
`awaiting_transfer`, bail out on a missing address, call the provider and
— with no duplicate re-check — write the verified record on success; on
failure apply the 300-second timeout. -/
def buttonDoneTransfer (tenv : TransferEnv) (config : ConfigStore) (ud : UserData)
    (userId : String) (s : Session) (now : Int) : StepResult :=
  let s2 : Session :=
    { s with firstFailTime := some (s.firstFailTime.getD now), step := "awaiting_transfer" }
  match s.address with
  | none => { outcome := .missingAddress, session := none, userData := ud, calledProvider := false }
  | some addr =>
    match dictGet config s.groupId with
    | none =>
      { outcome := .raisesError, session := some s2, userData := ud, calledProvider := false }
    | some cfg =>
      if check_token_transfer_moralis tenv cfg.verifier cfg.token then
        { outcome := .verifiedInvite
          session := none
          userData := writeVerified ud s.groupId userId addr now
          calledProvider := true }
      else
        let elapsed := now - (s.firstFailTime.getD now)
        if elapsed > 300 then
          { outcome := .timedOut, session := none, userData := ud, calledProvider := true }
        else
          { outcome := .notVerifiedYet (300 - elapsed)
            session := some s2
            userData := ud
            calledProvider := true }

/-- Embeds the `retry_transfer_check` callback branch of
`handle_verification_button`: first the 60-second cooldown gate
(rejecting with a wait message and mutating nothing), then `last_retry`
is stamped, then the 300-second timeout measured from `first_fail_time`
(a missing key raises), then the step/address guard, config lookup,
provider call, and — with no duplicate re-check — the verified write. -/
def retryTransferCheck (tenv : TransferEnv) (config : ConfigStore) (ud : UserData)
    (userId : String) (s : Session) (now : Int) : StepResult :=
  let lastRetry := s.lastRetry.getD 0
  if now - lastRetry < 60 then
    { outcome := .cooldownWait (60 - (now - lastRetry))
      session := some s
      userData := ud
      calledProvider := false }
  else
    let s1 : Session := { s with lastRetry := some now }
    match s.firstFailTime with
    | none => { outcome := .raisesError, session := some s1, userData := ud, calledProvider := false }
    | some fft =>
      let elapsed := now - fft
      if elapsed > 300 then
        { outcome := .timedOut, session := none, userData := ud, calledProvider := false }
      else if s1.step == "awaiting_transfer" && s1.address.isSome then
        match dictGet config s.groupId with
        | none =>
          { outcome := .raisesError, session := some s1, userData := ud, calledProvider := false }
        | some cfg =>
          if check_token_transfer_moralis tenv cfg.verifier cfg.token then
            { outcome := .verifiedInvite
              session := none
              userData := writeVerified ud s.groupId userId (s1.address.getD "") now
              calledProvider := true }
          else
            { outcome := .notVerifiedYet (300 - elapsed)
              session := some s1
              userData := ud
              calledProvider := true }
      else
        { outcome := .sessionInvalid, session := some s1, userData := ud, calledProvider := false }

/-! ## Periodic re-verification sweep (src/verify_cron.py) -/

/-- Environment for `verify_all_members`: the owner id (`ADMIN_USER_ID`),
a per-address balance environment feeding the embedded
`verify_user_balance`, and per-user success of the external
`ban_chat_member` + `unban_chat_member` pair (`false` = the removal call
raises). -/
structure SweepEnv where
  ownerId : String
  benv : String → BalanceEnv
  removeOk : String → Bool

/-- Result of one sweep over a group: the persisted `user_data.json`, the
snapshot written by each `save_json_file` call (most recent first), the
kicked users (most recent first), and the three tallies. -/
structure SweepResult where
  userData : UserData
  saves : List UserData
  bans : List String
  verifiedCount : Nat
  removedCount : Nat
  errorCount : Nat

/-- The per-user loop of `verify_all_members`, iterating over the group's
user items as captured at loop entry while threading the shared
`user_data` dict: the owner is skipped, unverified records are skipped,
sufficient balances count as verified, insufficient ones are banned then
unbanned and their record is flipped to `verified=false` and saved
immediately, and a raise from the removal call only increments the error
tally. -/
def verifyMembersLoop (env : SweepEnv) (cfg : GroupConfig) (gid : String) :
    List (String × UserRec) → UserData → SweepResult
  | [], ud =>
    { userData := ud, saves := [], bans := [], verifiedCount := 0, removedCount := 0
      errorCount := 0 }
  | (uid, userInfo) :: rest, ud =>
    if uid = env.ownerId then
      verifyMembersLoop env cfg gid rest ud
    else if userInfo.verified then
      if verify_user_balance (env.benv userInfo.address) cfg then
        let r := verifyMembersLoop env cfg gid rest ud
        { r with verifiedCount := r.verifiedCount + 1 }
      else if env.removeOk uid then
        let ud' :=
          dictSet ud gid
            (dictSet ((dictGet ud gid).getD []) uid { userInfo with verified := false })
        let r := verifyMembersLoop env cfg gid rest ud'
        { r with saves := ud' :: r.saves, bans := uid :: r.bans
                 removedCount := r.removedCount + 1 }
      else
        let r := verifyMembersLoop env cfg gid rest ud
        { r with errorCount := r.errorCount + 1 }
    else
      verifyMembersLoop env cfg gid rest ud

/-- Embeds `verify_all_members(bot, group_id, group_config)`: iterates
over `user_data.get(group_id, {})`. -/
def verify_all_members (env : SweepEnv) (cfg : GroupConfig) (gid : String)
    (ud : UserData) : SweepResult :=
  verifyMembersLoop env cfg gid ((dictGet ud gid).getD []) ud

/-- The record a group's user map holds for a user in a `user_data`
snapshot. -/
def groupEntry (ud : UserData) (gid uid : String) : Option UserRec :=
  dictGet ((dictGet ud gid).getD []) uid

/-! ## Group-facing entry points and the silent-drop policy (src/main.py) -/

/-- An externally observable action of a handler. -/
inductive Act where
  | send (tag : String)
  | ban (uid : String)
  | unban (uid : String)
  | dm (uid : String)
deriving Repr, DecidableEq

/-- Embeds `is_owner(user_id)`: comparison against `ADMIN_USER_ID`. -/
def is_owner (ownerId userId : String) : Bool := userId == ownerId

/-- The chat-type test `chat.type in ["group", "supergroup"]`. -/
def isGroupChat (chatType : String) : Bool :=
  chatType == "group" || chatType == "supergroup"

/-- Embeds `handle_group_start_command` (registered for group chats
only). -/
def handle_group_start_command (rej : RejStore) (gid userId ownerId : String) : List Act :=
  if is_group_blocked rej gid then []
  else if is_owner ownerId userId then [.send "owner start greeting"]
  else [.send "group start greeting"]

/-- Embeds the `start` command handler. -/
def start_command (rej : RejStore) (chatType gid userId ownerId : String) : List Act :=
  if isGroupChat chatType && is_group_blocked rej gid then []
  else if is_owner ownerId userId then [.send "owner greeting"]
  else [.send "greeting"]

/-- Embeds `help_command`. -/
def help_command (rej : RejStore) (chatType gid userId ownerId : String) : List Act :=
  if isGroupChat chatType && is_group_blocked rej gid then []
  else if is_owner ownerId userId then [.send "owner help"]
  else [.send "help"]

/-- Embeds `guide_command`. -/
def guide_command (rej : RejStore) (chatType gid : String) : List Act :=
  if isGroupChat chatType && is_group_blocked rej gid then []
  else if isGroupChat chatType then [.send "admin guide"]
  else [.send "user guide"]

/-- The persisted `whitelist.json` collection (`is_group_whitelisted`
tests key presence). -/
abbrev Whitelist := List (String × Bool)

/-- Embeds the `status` command handler: the blocked check runs before
the admin gate, the whitelist gate, and the settings reply. -/
def status_command (rej : RejStore) (gid userId ownerId : String)
    (memberStatus : Except PyErr String) (wl : Whitelist) (config : ConfigStore) :
    List Act :=
  if is_group_blocked rej gid then []
  else
    match memberStatus with
    | .error _ => [.send "error verifying admin status"]
    | .ok st =>
      if !(st == "administrator" || st == "creator") && !is_owner ownerId userId then
        [.send "only group admins"]
      else
        let showSettings : List Act :=
          match dictGet config gid with
          | none => [.send "no setup found"]
          | some _ => [.send "group settings and verification link"]
        if !is_owner ownerId userId && (dictGet wl gid).isNone then
          if (dictGet wl gid).isNone then [.send "never whitelisted"]
          else [.send "pending whitelist approval"]
        else showSettings

/-- Embeds `test_balance_all` (the `/testbalance` command):
`isGroupAdmin` is the inner `is_group_admin` helper's result (its
exceptions are caught to `False`). -/
def test_balance_all (rej : RejStore) (chatType gid userId ownerId : String)
    (isGroupAdmin : Bool) (args : List String) (benv : BalanceEnv) : List Act :=
  if isGroupChat chatType && is_group_blocked rej gid then []
  else if !is_owner ownerId userId && isGroupChat chatType && !isGroupAdmin then
    [.send "only owner or group admins"]
  else if !is_owner ownerId userId && !isGroupChat chatType then
    [.send "only in groups"]
  else if args.length < 2 then [.send "usage"]
  else
    [.send "testing balance",
     .send (if moralisConfigured benv then "moralis result" else "moralis not configured")]

/-- A setup session (`setup_sessions[user_id]`), with its partially
collected data dict. -/
structure SetupSession where
  groupId : String
  step : String
  chainId : Option String
  token : Option String
  minBalance : Option ℚ
  verifier : Option String
deriving Repr, DecidableEq

/-- Result of a setup-flow text step. -/
structure SetupStepResult where
  acts : List Act
  sessions : List (String × SetupSession)
  config : ConfigStore
deriving Repr, DecidableEq

/-- Embeds `complete_setup`: commit the session's data to `config.json`,
reply with the outcome (`saveOk` is the `save_json_file` result), and
drop the session. -/
def complete_setup (sessions : List (String × SetupSession)) (config : ConfigStore)
    (userId : String) (saveOk : Bool) (sess : SetupSession) : SetupStepResult :=
  let cfg : GroupConfig :=
    { chainId := sess.chainId.getD "solana"
      token := sess.token.getD ""
      minBalance := (sess.minBalance).getD 0
      verifier := sess.verifier.getD "" }
  let config' := dictSet config sess.groupId cfg
  if saveOk then
    { acts := [.send "setup completed with verification link"]
      sessions := sessions.filter (fun p => p.1 ≠ userId)
      config := config' }
  else
    { acts := [.send "failed to save configuration"]
      sessions := sessions.filter (fun p => p.1 ≠ userId)
      config := config }

/-- Embeds the registered `handle_setup_response` (the later definition in
src/main.py): blocked groups are dropped before the session lookup;
`parseFloat` models Python `float(...)` (`none` = `ValueError`). -/
def handle_setup_response (rej : RejStore) (chatType chatGid userId msgText : String)
    (sessions : List (String × SetupSession)) (config : ConfigStore)
    (parseFloat : String → Option ℚ) (saveOk : Bool) : SetupStepResult :=
  if isGroupChat chatType && is_group_blocked rej chatGid then
    { acts := [], sessions := sessions, config := config }
  else
    match dictGet sessions userId with
    | none => { acts := [], sessions := sessions, config := config }
    | some sess =>
      if sess.step == "token_address" then
        if !is_valid_ethereum_address msgText then
          { acts := [.send "invalid token address with retry buttons"]
            sessions := sessions, config := config }
        else
          { acts := [.send "enter the minimum balance"]
            sessions :=
              dictSet sessions userId
                { sess with token := some msgText, step := "min_balance" }
            config := config }
      else if sess.step == "min_balance" then
        match parseFloat msgText with
        | none =>
          { acts := [.send "invalid amount with retry buttons"]
            sessions := sessions, config := config }
        | some q =>
          if q ≤ 0 then
            { acts := [.send "invalid amount with retry buttons"]
              sessions := sessions, config := config }
          else
            { acts := [.send "enter the verifier wallet address"]
              sessions :=
                dictSet sessions userId
                  { sess with minBalance := some q, step := "verifier_address" }
              config := config }
      else if sess.step == "verifier_address" then
        if !is_valid_ethereum_address msgText then
          { acts := [.send "invalid verifier address with retry buttons"]
            sessions := sessions, config := config }
        else
          complete_setup sessions config userId saveOk
            { sess with verifier := some msgText }
      else { acts := [], sessions := sessions, config := config }

/-- The member loop of `handle_new_member`: a bot self-join replies and
returns, unverified joiners are kicked (`removeOk` = the ban/unban pair
does not raise) and sent verification instructions by DM, verified
joiners are left alone. -/
def newMemberLoop (botId gid : String) (udata : UserData) (removeOk : String → Bool) :
    List String → List Act
  | [] => []
  | m :: rest =>
    if m == botId then [.send "thanks for adding me"]
    else
      let verified := ((groupEntry udata gid m).map (fun r => r.verified)).getD false
      if !verified then
        if removeOk m then
          .ban m :: .unban m :: .dm m :: newMemberLoop botId gid udata removeOk rest
        else newMemberLoop botId gid udata removeOk rest
      else newMemberLoop botId gid udata removeOk rest

/-- Embeds `handle_new_member`: the blocked check precedes the owner
welcome, the config gate, and the per-member removal loop. -/
def handle_new_member (rej : RejStore) (gid senderId ownerId botId : String)
    (config : ConfigStore) (udata : UserData) (removeOk : String → Bool)
    (newMembers : List String) : List Act :=
  if is_group_blocked rej gid then []
  else if is_owner ownerId senderId then [.send "welcome owner"]
  else
    match dictGet config gid with
    | none => []
    | some _ => newMemberLoop botId gid udata removeOk newMembers

/-! ## Concrete fixtures used by witnesses and counterexamples -/

/-- A file system whose backing file parses as a JSON array. -/
def arrayFileEnv : StoreEnv :=
  { databaseUrl := none
    fileExists := fun _ => true
    fileRead := fun _ => Except.ok (Json.arr [Json.num 1, Json.num 2])
    fileWrite := fun _ => Except.ok ()
    dbFetch := fun _ => Except.ok none
    dbWrite := fun _ => Except.ok () }

/-- A balance environment with no Moralis key and a working Etherscan
key returning a raw balance of 500 with 2 decimals. -/
def etherscanOnlyEnv : BalanceEnv :=
  { moralisKey := none
    moralisCall := Except.error PyErr.err
    etherscanKey := some "etherscankey"
    etherscanCall := Except.ok 500
    decimalsCall := Except.ok 2 }

/-- A sample group configuration. -/
def sampleConfig : GroupConfig :=
  { chainId := "eth"
    token := "0xT0K3N"
    minBalance := 3
    verifier := "0xVERIF1ER" }

/-- A transfer provider environment returning exactly one qualifying
1-token transfer to the verifier of `sampleConfig`. -/
def oneGoodTransferEnv : TransferEnv :=
  { currentBlock := Except.ok 10000
    decimals := Except.ok 2
    transfers := fun _ _ =>
      Except.ok (some
        [{ value := 100
           toAddress := "0xverif1er"
           fromAddress := "0xabc"
           address := "0xt0k3n" }]) }

/-- A transfer provider environment that never finds a transfer. -/
def noTransferEnv : TransferEnv :=
  { currentBlock := Except.ok 10000
    decimals := Except.ok 2
    transfers := fun _ _ => Except.ok (some []) }

/-- A group user map in which user 1 already holds a verified record for
wallet `0xAbC` (stored in mixed case). -/
def takenWalletUsers : List (String × UserRec) :=
  [("1", { address := "0xAbC", verified := true, lastVerified := 50, verificationTx := true })]

/-- A user-data store containing `takenWalletUsers` for group `g`. -/
def takenWalletData : UserData := [("g", takenWalletUsers)]

/-- A verification session of user 2 in group `g` holding the same wallet
as user 1 in different case, already awaiting the transfer. -/
def user2Session : Session :=
  { groupId := "g"
    step := "awaiting_transfer"
    address := some "0xabc"
    firstFailTime := some 600
    lastRetry := some 990 }

/-- A config store holding `sampleConfig` for group `g`. -/
def sampleConfigStore : ConfigStore := [("g", sampleConfig)]

/-- A well-formed hex address, lower case. -/
def hex40Lower : String := "0xaaaaaaaaaaaaaaaaaaaaaaaaaaaaaaaaaaaaaaaa"

/-- The same well-formed hex address, upper case. -/
def hex40Upper : String := "0xAAAAAAAAAAAAAAAAAAAAAAAAAAAAAAAAAAAAAAAA"

/-- A user map where user 1 is verified for `hex40Lower`. -/
def taken40Users : List (String × UserRec) :=
  [("1", { address := hex40Lower, verified := true, lastVerified := 50,
           verificationTx := true })]

/-- A user-data store containing `taken40Users` for group `g`. -/
def taken40Data : UserData := [("g", taken40Users)]

/-- A session of user 2 still awaiting its address submission. -/
def user2AddressSession : Session :=
  { groupId := "g", step := "awaiting_address", address := none,
    firstFailTime := none, lastRetry := none }

/-- A session of user 2 awaiting the transfer for the upper-case variant
of user 1's wallet. -/
def user2DoneSession : Session :=
  { groupId := "g", step := "awaiting_transfer", address := some hex40Upper,
    firstFailTime := some 600, lastRetry := none }

/-- A session past its absolute timeout whose last retry is 100 seconds
old. -/
def user2IdleSession : Session :=
  { groupId := "g", step := "awaiting_transfer", address := some "0xabc",
    firstFailTime := some 600, lastRetry := some 900 }

/-- A fresh awaiting-transfer session that has never retried. -/
def freshRetrySession : Session :=
  { groupId := "g", step := "awaiting_transfer", address := some "0xabc",
    firstFailTime := some 600, lastRetry := none }

/-- A rejection store in which group `gb` has struck out. -/
def blockedStore : RejStore :=
  [("gb", { rejectionCount := 3, groupName := "Struck Out", lastAdminId := some "7"
            lastAdminName := "Admin", firstRejection := 100, lastRejection := 300
            blocked := true })]

/-- A balance environment whose Moralis call reports 10 tokens. -/
def passBalanceEnv : BalanceEnv :=
  { moralisKey := some "padpadpadpadpadpadpadpadpadpadpadpadpadpadpadpadpad"
    moralisCall := Except.ok 10
    etherscanKey := none
    etherscanCall := Except.error PyErr.err
    decimalsCall := Except.error PyErr.err }

/-- A balance environment whose Moralis call reports a single token,
below the sample minimum of 3. -/
def failBalanceEnv : BalanceEnv :=
  { moralisKey := some "padpadpadpadpadpadpadpadpadpadpadpadpadpadpadpadpad"
    moralisCall := Except.ok 1
    etherscanKey := none
    etherscanCall := Except.error PyErr.err
    decimalsCall := Except.error PyErr.err }

/-- Sweep environment: owner id `owner`, wallet `0xgood` passes the
balance check and every other wallet fails it, and the removal call
raises for user 3 only. -/
def sweepTestEnv : SweepEnv :=
  { ownerId := "owner"
    benv := fun addr => if addr = "0xgood" then passBalanceEnv else failBalanceEnv
    removeOk := fun uid => uid != "3" }

/-- Five sweep candidates: the exempt owner, a passing user 1, a failing
user 2, a failing user 3 whose removal raises, and an unverified user 4. -/
def sweepUsers : List (String × UserRec) :=
  [("owner", { address := "0xbad", verified := true, lastVerified := 10, verificationTx := true }),
   ("1", { address := "0xgood", verified := true, lastVerified := 11, verificationTx := true }),
   ("2", { address := "0xbad", verified := true, lastVerified := 12, verificationTx := true }),
   ("3", { address := "0xbad", verified := true, lastVerified := 13, verificationTx := true }),
   ("4", { address := "0xbad", verified := false, lastVerified := 14, verificationTx := false })]

/-- A user-data store containing `sweepUsers` for group `g`. -/
def sweepData : UserData := [("g", sweepUsers)]

/-! # Theorems -/

/-! ## Dictionary lemmas -/

theorem dictGet_dictSet_self {α : Type} (l : List (String × α)) (k : String) (v : α) :
    dictGet (dictSet l k v) k = some v := by
  induction l with
  | nil => simp [dictGet, dictSet]
  | cons hd tl ih =>
    by_cases h : hd.1 = k
    · simp [dictSet, dictGet, h]
    · simp [dictSet, dictGet, h, ih]

theorem dictGet_dictSet_ne {α : Type} (l : List (String × α)) (k k' : String) (v : α)
    (h : k ≠ k') : dictGet (dictSet l k' v) k = dictGet l k := by
  have h' : k' ≠ k := Ne.symm h
  induction l with
  | nil => simp [dictGet, dictSet, h']
  | cons hd tl ih =>
    by_cases hh : hd.1 = k'
    · simp [dictSet, dictGet, hh, h']
    · by_cases hk : hd.1 = k
      · simp [dictSet, dictGet, hh, hk, h]
      · simp [dictSet, dictGet, hh, hk, ih]

theorem dictGet_of_mem_nodup {α : Type} (l : List (String × α)) (k : String) (v : α)
    (hmem : (k, v) ∈ l) (hnd : keysNodup l) : dictGet l k = some v := by
  induction l with
  | nil => cases hmem
  | cons hd tl ih =>
    rcases List.mem_cons.mp hmem with heq | htl
    · subst heq; simp [dictGet]
    · have hk : hd.1 ≠ k := by
        intro hkk
        have hmap : k ∈ tl.map Prod.fst := List.mem_map.mpr ⟨(k, v), htl, rfl⟩
        have hnotin := (List.nodup_cons.mp hnd).1
        rw [hkk] at hnotin
        exact hnotin hmap
      have hnd' : keysNodup tl := (List.nodup_cons.mp hnd).2
      simp [dictGet, hk, ih htl hnd']

/-! ## 3-strike policy lemmas -/

theorem track_rejection_count (store : RejStore) (gid : String)
    (gn ai an : Option String) (t : Int) :
    get_rejection_count (track_rejection store gid gn ai an t).1 gid =
      get_rejection_count store gid + 1 := by
  rcases hg : dictGet store gid with _ | r <;>
    rcases gn with _ | g <;> rcases ai with _ | a <;> rcases an with _ | b <;>
      simp [track_rejection, get_rejection_count, hg, dictGet_dictSet_self] <;>
        split <;> simp

theorem track_rejection_ret (store : RejStore) (gid : String)
    (gn ai an : Option String) (t : Int) :
    (track_rejection store gid gn ai an t).2 =
      (decide (3 ≤ get_rejection_count store gid + 1) || is_group_blocked store gid) := by
  rcases hg : dictGet store gid with _ | r <;>
    rcases gn with _ | g <;> rcases ai with _ | a <;> rcases an with _ | b <;>
      simp [track_rejection, get_rejection_count, is_group_blocked, hg] <;>
        split <;> simp_all

theorem track_rejection_blocked (store : RejStore) (gid : String)
    (gn ai an : Option String) (t : Int) :
    is_group_blocked (track_rejection store gid gn ai an t).1 gid =
      (track_rejection store gid gn ai an t).2 := by
  rcases hg : dictGet store gid with _ | r <;>
    rcases gn with _ | g <;> rcases ai with _ | a <;> rcases an with _ | b <;>
      simp [track_rejection, is_group_blocked, hg, dictGet_dictSet_self]

theorem track_rejection_isSome (store : RejStore) (gid : String)
    (gn ai an : Option String) (t : Int) :
    (dictGet (track_rejection store gid gn ai an t).1 gid).isSome := by
  rcases hg : dictGet store gid with _ | r <;>
    rcases gn with _ | g <;> rcases ai with _ | a <;> rcases an with _ | b <;>
      simp [track_rejection, hg, dictGet_dictSet_self]

theorem reset_rejection_spec (store : RejStore) (gid : String)
    (hsome : (dictGet store gid).isSome) :
    get_rejection_count (reset_rejection_count store gid).1 gid = 0 ∧
      is_group_blocked (reset_rejection_count store gid).1 gid = false := by
  rcases hg : dictGet store gid with _ | r
  · rw [hg] at hsome; cases hsome
  · constructor <;>
      simp [reset_rejection_count, get_rejection_count, is_group_blocked, hg,
        dictGet_dictSet_self]

/-- C5: on a group with no prior rejection record, three consecutive
`track_rejection` calls return `false`, `false`, `true`, with the group
blocked after the third; `reset_rejection_count` then zeroes the count and
unblocks the group, and the next `track_rejection` call returns `false`
with the count restarting at 1. -/
theorem three_strikes_then_reset (store : RejStore) (gid : String)
    (gn ai an : Option String) (t1 t2 t3 t4 : Int)
    (hfresh : dictGet store gid = none) :
    (track_rejection store gid gn ai an t1).2 = false ∧
    (track_rejection (track_rejection store gid gn ai an t1).1 gid gn ai an t2).2 = false ∧
    (track_rejection (track_rejection (track_rejection store gid gn ai an t1).1
        gid gn ai an t2).1 gid gn ai an t3).2 = true ∧
    is_group_blocked (track_rejection (track_rejection (track_rejection store
        gid gn ai an t1).1 gid gn ai an t2).1 gid gn ai an t3).1 gid = true ∧
    get_rejection_count (reset_rejection_count (track_rejection (track_rejection
        (track_rejection store gid gn ai an t1).1 gid gn ai an t2).1 gid
        gn ai an t3).1 gid).1 gid = 0 ∧
    is_group_blocked (reset_rejection_count (track_rejection (track_rejection
        (track_rejection store gid gn ai an t1).1 gid gn ai an t2).1 gid
        gn ai an t3).1 gid).1 gid = false ∧
    (track_rejection (reset_rejection_count (track_rejection (track_rejection
        (track_rejection store gid gn ai an t1).1 gid gn ai an t2).1 gid
        gn ai an t3).1 gid).1 gid gn ai an t4).2 = false ∧
    get_rejection_count (track_rejection (reset_rejection_count (track_rejection
        (track_rejection (track_rejection store gid gn ai an t1).1 gid gn ai an
        t2).1 gid gn ai an t3).1 gid).1 gid gn ai an t4).1 gid = 1 := by
  have hc0 : get_rejection_count store gid = 0 := by
    simp [get_rejection_count, hfresh]
  have hb0 : is_group_blocked store gid = false := by
    simp [is_group_blocked, hfresh]
  have hc1 := track_rejection_count store gid gn ai an t1
  have hr1 := track_rejection_ret store gid gn ai an t1
  have hb1 := track_rejection_blocked store gid gn ai an t1
  set s1 := (track_rejection store gid gn ai an t1).1 with hs1
  have hc2 := track_rejection_count s1 gid gn ai an t2
  have hr2 := track_rejection_ret s1 gid gn ai an t2
  have hb2 := track_rejection_blocked s1 gid gn ai an t2
  set s2 := (track_rejection s1 gid gn ai an t2).1 with hs2
  have hc3 := track_rejection_count s2 gid gn ai an t3
  have hr3 := track_rejection_ret s2 gid gn ai an t3
  have hb3 := track_rejection_blocked s2 gid gn ai an t3
  set s3 := (track_rejection s2 gid gn ai an t3).1 with hs3
  have hsome3 := track_rejection_isSome s2 gid gn ai an t3
  have hreset := reset_rejection_spec s3 gid hsome3
  set s4 := (reset_rejection_count s3 gid).1 with hs4
  have hc5 := track_rejection_count s4 gid gn ai an t4
  have hr5 := track_rejection_ret s4 gid gn ai an t4
  rw [hc0] at hc1 hr1
  rw [hb0] at hr1
  rw [hc1] at hc2 hr2
  rw [hb1, hr1] at hr2
  rw [hc2] at hc3 hr3
  rw [hb2, hr2] at hr3
  rw [hreset.1] at hc5 hr5
  rw [hreset.2] at hr5
  refine ⟨?_, ?_, ?_, ?_, ?_, ?_, ?_, ?_⟩
  · rw [hr1]; decide
  · rw [hr2]; decide
  · rw [hr3]; decide
  · rw [hb3, hr3]; decide
  · exact hreset.1
  · exact hreset.2
  · rw [hr5]; decide
  · rw [hc5]

/-- C5 witness: the cycle run on the empty store for group `g1`. -/
theorem three_strikes_then_reset_witness :
    dictGet ([] : RejStore) "g1" = none ∧
    (track_rejection ([] : RejStore) "g1" none none none 10).2 = false ∧
    (track_rejection (track_rejection (track_rejection ([] : RejStore) "g1"
        none none none 10).1 "g1" none none none 20).1 "g1" none none none 30).2 = true := by
  have h := three_strikes_then_reset ([] : RejStore) "g1" none none none 10 20 30 40 rfl
  exact ⟨rfl, h.1, h.2.2.1⟩

/-! ## C10: totality of the JSON persistence layer -/

/-- C10 counterexample: a backing file holding the well-formed JSON array
`[1, 2]` is neither absent, unreadable nor corrupt, yet `load_json_file`
returns that array — not a dictionary. -/
theorem load_json_file_returns_non_dict :
    load_json_file arrayFileEnv "user_data.json" = Json.arr [Json.num 1, Json.num 2] ∧
    (load_json_file arrayFileEnv "user_data.json").isObj = false := by
  constructor <;> rfl

/-- C10 amended: `load_json_file` never raises — in every environment it
returns the parsed JSON value of the backing file or database row (a
dictionary whenever that value is an object, which is what every writer of
this program stores), and the empty dictionary whenever the file is
absent, the read raises, or the database row is missing — and
`save_json_file` returns `False` instead of raising when the write
primitive raises, `True` when it succeeds. -/
theorem load_save_json_total (env : StoreEnv) (path : String) :
    (env.databaseUrl = none → env.fileExists path = false →
      load_json_file env path = Json.obj []) ∧
    (∀ e, env.databaseUrl = none → env.fileRead path = Except.error e →
      load_json_file env path = Json.obj []) ∧
    (∀ v, env.databaseUrl = none → env.fileExists path = true →
      env.fileRead path = Except.ok v → load_json_file env path = v) ∧
    (∀ u e, env.databaseUrl = some u → env.dbFetch path = Except.error e →
      load_json_file env path = Json.obj []) ∧
    (∀ u, env.databaseUrl = some u → env.dbFetch path = Except.ok none →
      load_json_file env path = Json.obj []) ∧
    (∀ u v, env.databaseUrl = some u → env.dbFetch path = Except.ok (some v) →
      load_json_file env path = v) ∧
    (∀ e, env.databaseUrl = none → env.fileWrite path = Except.error e →
      save_json_file env path = false) ∧
    (env.databaseUrl = none → env.fileWrite path = Except.ok () →
      save_json_file env path = true) ∧
    (∀ u e, env.databaseUrl = some u → env.dbWrite path = Except.error e →
      save_json_file env path = false) ∧
    (∀ u, env.databaseUrl = some u → env.dbWrite path = Except.ok () →
      save_json_file env path = true) := by
  refine ⟨?_, ?_, ?_, ?_, ?_, ?_, ?_, ?_, ?_, ?_⟩
  · intro h1 h2; simp [load_json_file, h1, h2]
  · intro e h1 h2
    by_cases hex : env.fileExists path <;> simp [load_json_file, h1, h2, hex]
  · intro v h1 h2 h3; simp [load_json_file, h1, h2, h3]
  · intro u e h1 h2; simp [load_json_file, h1, h2]
  · intro u h1 h2; simp [load_json_file, h1, h2]
  · intro u v h1 h2; simp [load_json_file, h1, h2]
  · intro e h1 h2; simp [save_json_file, h1, h2]
  · intro h1 h2; simp [save_json_file, h1, h2]
  · intro u e h1 h2; simp [save_json_file, h1, h2]
  · intro u h1 h2; simp [save_json_file, h1, h2]

/-- C10 witness: the amended claim evaluated on the array-file
environment: the file exists, parses, and its value is returned. -/
theorem load_save_json_total_witness :
    arrayFileEnv.databaseUrl = none ∧
    arrayFileEnv.fileExists "config.json" = true ∧
    arrayFileEnv.fileRead "config.json" = Except.ok (Json.arr [Json.num 1, Json.num 2]) ∧
    load_json_file arrayFileEnv "config.json" = Json.arr [Json.num 1, Json.num 2] := by
  refine ⟨rfl, rfl, rfl, ?_⟩
  exact (load_save_json_total arrayFileEnv "config.json").2.2.1
    (Json.arr [Json.num 1, Json.num 2]) rfl rfl rfl

/-! ## C9: address validation for the base58 chain family -/

/-- C9: the validator the source applies to the base58 (Solana) chain
family is `is_valid_ethereum_address`, a hex-pattern match; it rejects the
all-ones Solana system-program address even though that string base58
decodes to exactly 32 bytes, contradicting the claimed accept condition. -/
theorem base58_32_byte_address_rejected :
    base58DecodedLen "11111111111111111111111111111111" = some 32 ∧
    is_valid_ethereum_address "11111111111111111111111111111111" = false := by
  constructor <;> rfl

/-! ## C3: balance verification fallback chain -/

/-- C3: `verify_user_balance` never raises, and: when Moralis is
unconfigured, raises, or returns zero, the Etherscan result normalised by
the fetched decimals decides the outcome; when Moralis is configured and
returns a positive balance, that balance decides the outcome; when every
provider fails or returns zero the result is `false` (for the positive
thresholds the setup flow admits). -/
theorem verify_user_balance_fallback (env : BalanceEnv) (cfg : GroupConfig) :
    ((moralisConfigured env = false ∨ env.moralisCall = Except.error PyErr.err ∨
        env.moralisCall = Except.ok 0) →
      verify_user_balance env cfg =
        decide (cfg.minBalance ≤
          get_token_balance_etherscan env / 10 ^ get_token_decimals env)) ∧
    (∀ q : ℚ, moralisConfigured env = true → env.moralisCall = Except.ok q → 0 < q →
      verify_user_balance env cfg = decide (cfg.minBalance ≤ q)) ∧
    ((moralisConfigured env = false ∨ env.moralisCall = Except.error PyErr.err ∨
        env.moralisCall = Except.ok 0) →
      (env.etherscanKey = none ∨ env.etherscanCall = Except.error PyErr.err ∨
        env.etherscanCall = Except.ok 0) →
      0 < cfg.minBalance →
      verify_user_balance env cfg = false) := by
  have hmor : (moralisConfigured env = false ∨ env.moralisCall = Except.error PyErr.err ∨
      env.moralisCall = Except.ok 0) →
      verify_user_balance env cfg =
        decide (cfg.minBalance ≤
          get_token_balance_etherscan env / 10 ^ get_token_decimals env) := by
    intro h
    rcases h with h | h | h
    · simp [verify_user_balance, h]
    · by_cases hc : moralisConfigured env <;>
        simp [verify_user_balance, get_token_balance_moralis, h, hc]
    · by_cases hc : moralisConfigured env <;>
        simp [verify_user_balance, get_token_balance_moralis, h, hc]
  refine ⟨hmor, ?_, ?_⟩
  · intro q hc hq hpos
    have hnle : ¬(q ≤ 0) := not_le.mpr hpos
    simp [verify_user_balance, get_token_balance_moralis, hc, hq, hnle]
  · intro h1 h2 hmin
    rw [hmor h1]
    have hzero : get_token_balance_etherscan env = 0 := by
      rcases h2 with h | h | h
      · simp [get_token_balance_etherscan, h]
      · rcases he : env.etherscanKey with _ | k <;>
          simp [get_token_balance_etherscan, he, h]
      · rcases he : env.etherscanKey with _ | k <;>
          simp [get_token_balance_etherscan, he, h]
    rw [hzero]
    simp [not_le.mpr hmin]

/-- C3 witness: with no Moralis key and Etherscan returning raw 500 at 2
decimals against a minimum of 3 tokens, the fallback result is `true`. -/
theorem verify_user_balance_fallback_witness :
    moralisConfigured etherscanOnlyEnv = false ∧
    verify_user_balance etherscanOnlyEnv sampleConfig = true := by
  have h := (verify_user_balance_fallback etherscanOnlyEnv sampleConfig).1 (Or.inl rfl)
  refine ⟨rfl, ?_⟩
  rw [h]
  have hb : get_token_balance_etherscan etherscanOnlyEnv = 500 := rfl
  have hd : get_token_decimals etherscanOnlyEnv = 2 := rfl
  have hm : sampleConfig.minBalance = 3 := rfl
  rw [hb, hd, hm]
  norm_num

/-! ## C4: transfer qualification and the bounded scan -/

/-- C4: the transfer check returns `true` exactly when the provider calls
all succeed for the window of the last 800 blocks and some returned
transfer qualifies, where a transfer qualifies exactly when its
destination and token contract match case-insensitively and its
normalised amount is within `1 / 10 ^ decimals` of 1; all failure paths
return `false`. -/
theorem check_token_transfer_spec (env : TransferEnv) (verifier tok : String) :
    (check_token_transfer_moralis env verifier tok = true ↔
      ∃ cb dec ts, env.currentBlock = Except.ok cb ∧ env.decimals = Except.ok dec ∧
        env.transfers (cb - 800) cb = Except.ok (some ts) ∧
        ∃ t ∈ ts, transferQualifies verifier tok dec t = true) ∧
    (∀ t dec, transferQualifies verifier tok dec t = true ↔
      pyLower t.toAddress = pyLower verifier ∧ pyLower t.address = pyLower tok ∧
        |(t.value : ℚ) / 10 ^ dec - 1| ≤ 1 / 10 ^ dec) := by
  constructor
  · constructor
    · intro h
      unfold check_token_transfer_moralis at h
      rcases hcb : env.currentBlock with e | cb
      · simp only [hcb] at h; exact Bool.noConfusion h
      simp only [hcb] at h
      rcases hdec : env.decimals with e | dec
      · simp only [hdec] at h; exact Bool.noConfusion h
      simp only [hdec] at h
      rcases hts : env.transfers (cb - 800) cb with e | mts
      · simp only [hts] at h; exact Bool.noConfusion h
      simp only [hts] at h
      rcases mts with _ | ts
      · exact Bool.noConfusion h
      rcases List.any_eq_true.mp h with ⟨t, ht, hq⟩
      exact ⟨cb, dec, ts, rfl, rfl, hts, t, ht, hq⟩
    · rintro ⟨cb, dec, ts, h1, h2, h3, t, ht, hq⟩
      unfold check_token_transfer_moralis
      simp only [h1, h2, h3]
      exact List.any_eq_true.mpr ⟨t, ht, hq⟩
  · intro t dec
    simp [transferQualifies, Bool.and_eq_true, decide_eq_true_iff, beq_iff_eq,
      and_assoc]

/-- C4 witness: with 2 decimals, a raw transfer of 100 units (exactly
1.0) to the verifier qualifies and makes the check succeed, while a raw
transfer of 98 units (0.98, outside the 0.01 tolerance) does not
qualify. -/
theorem check_token_transfer_spec_witness :
    check_token_transfer_moralis oneGoodTransferEnv "0xVERIF1ER" "0xT0K3N" = true ∧
    transferQualifies "0xVERIF1ER" "0xT0K3N" 2
      { value := 98, toAddress := "0xverif1er", fromAddress := "0xabc",
        address := "0xt0k3n" } = false := by
  constructor
  · refine ((check_token_transfer_spec oneGoodTransferEnv "0xVERIF1ER" "0xT0K3N").1).mpr
      ⟨10000, 2, _, rfl, rfl, rfl, ?_⟩
    refine ⟨{ value := 100, toAddress := "0xverif1er", fromAddress := "0xabc",
              address := "0xt0k3n" }, by decide, ?_⟩
    refine ((check_token_transfer_spec oneGoodTransferEnv "0xVERIF1ER" "0xT0K3N").2
        _ 2).mpr ⟨by decide, by decide, by norm_num⟩
  · refine Bool.eq_false_iff.mpr fun htrue => ?_
    have h := ((check_token_transfer_spec oneGoodTransferEnv "0xVERIF1ER" "0xT0K3N").2
        _ 2).mp htrue
    have habs := h.2.2
    norm_num at habs
    rw [show |(1 : ℚ) / 50| = 1 / 50 from abs_of_pos (by norm_num)] at habs
    norm_num at habs

/-! ## Session-machine helper lemmas -/

theorem check_token_transfer_eq_any (env : TransferEnv) (v tok : String) (cb dec : Nat)
    (ts : List Transfer) (h1 : env.currentBlock = Except.ok cb)
    (h2 : env.decimals = Except.ok dec)
    (h3 : env.transfers (cb - 800) cb = Except.ok (some ts)) :
    check_token_transfer_moralis env v tok = ts.any (transferQualifies v tok dec) := by
  unfold check_token_transfer_moralis
  simp only [h1, h2, h3]

theorem oneGoodTransferEnv_check_true :
    check_token_transfer_moralis oneGoodTransferEnv
      sampleConfig.verifier sampleConfig.token = true := by
  rw [check_token_transfer_eq_any oneGoodTransferEnv sampleConfig.verifier
      sampleConfig.token 10000 2 _ rfl rfl rfl]
  simp only [List.any_cons, List.any_nil, Bool.or_false, transferQualifies,
    Bool.and_eq_true, decide_eq_true_iff]
  refine ⟨⟨by decide, by decide⟩, ?_⟩
  norm_num

theorem noTransferEnv_check_false (v tok : String) :
    check_token_transfer_moralis noTransferEnv v tok = false := by
  rw [check_token_transfer_eq_any noTransferEnv v tok 10000 2 [] rfl rfl rfl]
  rfl

/-! ## C1: per-group uniqueness of verified wallets -/

/-- C1 counterexample: user 1 of group `g` holds a verified record for
wallet `0xAbC`; user 2's session claims the same wallet in different case,
and the `done_transfer` button path writes user 2's `verified=true` record
with no duplicate re-check, producing two verified users with the same
lowercased wallet — the claimed rejection does not happen on this path. -/
theorem button_path_breaks_wallet_uniqueness :
    walletTakenByOther takenWalletUsers "2" "0xabc" = true ∧
    (buttonDoneTransfer oneGoodTransferEnv sampleConfigStore takenWalletData "2"
        user2Session 1000).outcome = Outcome.verifiedInvite ∧
    uniqueVerifiedWallets takenWalletUsers = true ∧
    uniqueVerifiedWallets
      ((dictGet (buttonDoneTransfer oneGoodTransferEnv sampleConfigStore takenWalletData
          "2" user2Session 1000).userData "g").getD []) = false := by
  have hstep :
      buttonDoneTransfer oneGoodTransferEnv sampleConfigStore takenWalletData "2"
        user2Session 1000 =
      { outcome := Outcome.verifiedInvite
        session := none
        userData := writeVerified takenWalletData "g" "2" "0xabc" 1000
        calledProvider := true } := by
    unfold buttonDoneTransfer
    simp [user2Session, sampleConfigStore, dictGet, oneGoodTransferEnv_check_true]
  refine ⟨by decide, ?_, by decide, ?_⟩
  · rw [hstep]
  · rw [hstep]
    decide

/-- C1 amended: the DM text paths do enforce uniqueness — on address
submission and again immediately before the verified write after a
successful transfer check, a wallet already held case-insensitively by a
different currently-verified user of the group terminates the session
with a rejection and leaves the persisted records unchanged; the
button-driven completion paths write without this re-check. -/
theorem dm_paths_reject_duplicate_wallet :
    (∀ (benv : BalanceEnv) (config : ConfigStore) (ud : UserData) (uid msg : String)
        (s : Session),
      is_valid_ethereum_address msg = true →
      walletTakenByOther ((dictGet ud s.groupId).getD []) uid msg = true →
      dmAddressSubmit benv config ud uid msg s =
        { outcome := Outcome.duplicateWallet, session := none, userData := ud
          calledProvider := false }) ∧
    (∀ (tenv : TransferEnv) (config : ConfigStore) (ud : UserData) (uid : String)
        (s : Session) (now : Int) (cfg : GroupConfig) (addr : String),
      dictGet config s.groupId = some cfg →
      s.address = some addr →
      check_token_transfer_moralis tenv cfg.verifier cfg.token = true →
      walletTakenByOther ((dictGet ud s.groupId).getD []) uid addr = true →
      dmDoneTransfer true tenv config ud uid s now =
        { outcome := Outcome.duplicateWallet, session := none, userData := ud
          calledProvider := true }) := by
  constructor
  · intro benv config ud uid msg s hvalid hdup
    simp [dmAddressSubmit, hvalid, hdup]
  · intro tenv config ud uid s now cfg addr hcfg haddr hchk hdup
    simp [dmDoneTransfer, hcfg, haddr, hchk, hdup]

/-- C1 witness: both DM paths evaluated on a group where user 1 already
holds the wallet: user 2's address submission and user 2's post-transfer
write are each rejected with the store unchanged. -/
theorem dm_paths_reject_duplicate_wallet_witness :
    is_valid_ethereum_address hex40Upper = true ∧
    walletTakenByOther taken40Users "2" hex40Upper = true ∧
    dmAddressSubmit etherscanOnlyEnv sampleConfigStore taken40Data "2" hex40Upper
        user2AddressSession =
      { outcome := Outcome.duplicateWallet, session := none, userData := taken40Data
        calledProvider := false } ∧
    dmDoneTransfer true oneGoodTransferEnv sampleConfigStore taken40Data "2"
        user2DoneSession 700 =
      { outcome := Outcome.duplicateWallet, session := none, userData := taken40Data
        calledProvider := true } := by
  refine ⟨by decide, by decide, ?_, ?_⟩
  · exact dm_paths_reject_duplicate_wallet.1 etherscanOnlyEnv sampleConfigStore
      taken40Data "2" hex40Upper user2AddressSession (by decide) (by decide)
  · exact dm_paths_reject_duplicate_wallet.2 oneGoodTransferEnv sampleConfigStore
      taken40Data "2" user2DoneSession 700 sampleConfig hex40Upper rfl rfl
      oneGoodTransferEnv_check_true (by decide)

/-! ## C2: the absolute timeout versus the retry cooldown -/

/-- C2 counterexample: a retry recheck 10 seconds after the previous
retry on a session whose `first_fail_time` is 400 seconds old is answered
with a cooldown wait message and the session survives — it is not
terminated as timed out, because the cooldown gate runs first. -/
theorem cooldown_shields_expired_session :
    (1000 : Int) - user2Session.firstFailTime.getD 0 > 300 ∧
    (1000 : Int) - user2Session.lastRetry.getD 0 < 60 ∧
    retryTransferCheck noTransferEnv sampleConfigStore takenWalletData "2"
        user2Session 1000 =
      { outcome := Outcome.cooldownWait 50, session := some user2Session
        userData := takenWalletData, calledProvider := false } := by
  refine ⟨by decide, by decide, by decide⟩

/-- C2 amended: the absolute 300-second timeout terminates the session on
a transfer recheck provided the recheck gets past the cooldown gate: a
retry recheck at least 60 seconds after the previous retry is terminated
as timed out (before any provider call), and a done-button recheck (which
has no cooldown) is terminated as timed out when its transfer check
fails; a retry recheck within 60 seconds of the previous retry is instead
rejected with a wait message, leaving the expired session alive. -/
theorem recheck_timeout_after_cooldown (tenv : TransferEnv) (config : ConfigStore)
    (ud : UserData) (uid : String) (s : Session) (now fft : Int)
    (hfft : s.firstFailTime = some fft) (hto : 300 < now - fft) :
    (60 ≤ now - s.lastRetry.getD 0 →
      retryTransferCheck tenv config ud uid s now =
        { outcome := Outcome.timedOut, session := none, userData := ud
          calledProvider := false }) ∧
    (∀ (cfg : GroupConfig) (addr : String),
      dictGet config s.groupId = some cfg →
      s.address = some addr →
      check_token_transfer_moralis tenv cfg.verifier cfg.token = false →
      buttonDoneTransfer tenv config ud uid s now =
        { outcome := Outcome.timedOut, session := none, userData := ud
          calledProvider := true }) ∧
    (now - s.lastRetry.getD 0 < 60 →
      retryTransferCheck tenv config ud uid s now =
        { outcome := Outcome.cooldownWait (60 - (now - s.lastRetry.getD 0))
          session := some s, userData := ud, calledProvider := false }) := by
  refine ⟨?_, ?_, ?_⟩
  · intro hcool
    have hnl : ¬(now - s.lastRetry.getD 0 < 60) := not_lt.mpr hcool
    simp [retryTransferCheck, hnl, hfft, hto]
  · intro cfg addr hcfg haddr hchk
    simp [buttonDoneTransfer, hcfg, haddr, hchk, hfft, hto]
  · intro hcool
    simp [retryTransferCheck, hcool]

/-- C2 witness: a session 400 seconds past `first_fail_time` whose last
retry is 100 seconds old is timed out on both recheck paths. -/
theorem recheck_timeout_after_cooldown_witness :
    user2IdleSession.firstFailTime = some 600 ∧
    (300 : Int) < 1000 - 600 ∧
    (60 : Int) ≤ 1000 - user2IdleSession.lastRetry.getD 0 ∧
    retryTransferCheck noTransferEnv sampleConfigStore takenWalletData "2"
        user2IdleSession 1000 =
      { outcome := Outcome.timedOut, session := none, userData := takenWalletData
        calledProvider := false } ∧
    buttonDoneTransfer noTransferEnv sampleConfigStore takenWalletData "2"
        user2IdleSession 1000 =
      { outcome := Outcome.timedOut, session := none, userData := takenWalletData
        calledProvider := true } := by
  have h := recheck_timeout_after_cooldown noTransferEnv sampleConfigStore
    takenWalletData "2" user2IdleSession 1000 600 rfl (by decide)
  refine ⟨rfl, by decide, by decide, ?_, ?_⟩
  · exact h.1 (by decide)
  · exact h.2.1 sampleConfig "0xabc" rfl rfl (noTransferEnv_check_false _ _)

/-! ## C8: the 60-second retry cooldown -/

/-- C8: after a retry recheck at time `t1` that passes the cooldown and
timeout gates and calls the provider (stamping `last_retry := t1`), a
second retry recheck less than 60 seconds later is rejected with a wait
message, mutating no session field, leaving the store untouched, and
calling no provider; a second retry recheck 61 or more seconds later
(still within the absolute timeout) again reaches a provider call. -/
theorem retry_cooldown_enforced (tenv : TransferEnv) (config : ConfigStore)
    (ud : UserData) (uid : String) (s : Session) (t1 t2 fft : Int)
    (addr : String) (cfg : GroupConfig)
    (hstep : s.step = "awaiting_transfer") (haddr : s.address = some addr)
    (hfft : s.firstFailTime = some fft)
    (hcool1 : 60 ≤ t1 - s.lastRetry.getD 0) (hto1 : t1 - fft ≤ 300)
    (hcfg : dictGet config s.groupId = some cfg)
    (hchk : check_token_transfer_moralis tenv cfg.verifier cfg.token = false) :
    (retryTransferCheck tenv config ud uid s t1).calledProvider = true ∧
    (retryTransferCheck tenv config ud uid s t1).session =
      some { s with lastRetry := some t1 } ∧
    (t2 - t1 < 60 →
      retryTransferCheck tenv config ud uid { s with lastRetry := some t1 } t2 =
        { outcome := Outcome.cooldownWait (60 - (t2 - t1))
          session := some { s with lastRetry := some t1 }
          userData := ud
          calledProvider := false }) ∧
    (61 ≤ t2 - t1 → t2 - fft ≤ 300 →
      (retryTransferCheck tenv config ud uid
          { s with lastRetry := some t1 } t2).calledProvider = true) := by
  have hnl1 : ¬(t1 - s.lastRetry.getD 0 < 60) := not_lt.mpr hcool1
  have hnt1 : ¬(t1 - fft > 300) := not_lt.mpr hto1
  refine ⟨?_, ?_, ?_, ?_⟩
  · simp [retryTransferCheck, hnl1, hfft, hnt1, hstep, haddr, hcfg, hchk]
  · simp [retryTransferCheck, hnl1, hfft, hnt1, hstep, haddr, hcfg, hchk]
  · intro hlt
    simp [retryTransferCheck, hlt]
  · intro hge hto2
    have hnl2 : ¬(t2 - t1 < 60) := by omega
    have hnt2 : ¬(t2 - fft > 300) := not_lt.mpr hto2
    simp [retryTransferCheck, hnl2, hfft, hnt2, hstep, haddr, hcfg, hchk]

/-- C8 witness: a first retry at 650 on a fresh session proceeds; a
second at 660 is rejected with a 50-second wait and no change; a second
at 711 proceeds to the provider again. -/
theorem retry_cooldown_enforced_witness :
    (retryTransferCheck noTransferEnv sampleConfigStore takenWalletData "2"
        freshRetrySession 650).calledProvider = true ∧
    retryTransferCheck noTransferEnv sampleConfigStore takenWalletData "2"
        { freshRetrySession with lastRetry := some 650 } 660 =
      { outcome := Outcome.cooldownWait 50
        session := some { freshRetrySession with lastRetry := some 650 }
        userData := takenWalletData
        calledProvider := false } ∧
    (retryTransferCheck noTransferEnv sampleConfigStore takenWalletData "2"
        { freshRetrySession with lastRetry := some 650 } 711).calledProvider = true := by
  have h := retry_cooldown_enforced noTransferEnv sampleConfigStore takenWalletData "2"
    freshRetrySession 650 660 600 "0xabc" sampleConfig rfl rfl rfl (by decide)
    (by decide) rfl (noTransferEnv_check_false _ _)
  have h' := retry_cooldown_enforced noTransferEnv sampleConfigStore takenWalletData "2"
    freshRetrySession 650 711 600 "0xabc" sampleConfig rfl rfl rfl (by decide)
    (by decide) rfl (noTransferEnv_check_false _ _)
  exact ⟨h.1, h.2.2.1 (by decide), h'.2.2.2 (by decide) (by decide)⟩

/-! ## C7: silent drop for blocked groups -/

/-- C7: when a group is blocked under the 3-strike policy, every embedded
group-facing entry point — the group start command, the generic
start/help/guide commands in a group chat, the status command, the
testbalance command, the setup text handler, and the new-member event —
performs no action and sends no response. -/
theorem blocked_groups_silently_dropped (rej : RejStore) (gid : String)
    (hblocked : is_group_blocked rej gid = true) :
    (∀ userId ownerId,
      handle_group_start_command rej gid userId ownerId = []) ∧
    (∀ chatType userId ownerId, isGroupChat chatType = true →
      start_command rej chatType gid userId ownerId = []) ∧
    (∀ chatType userId ownerId, isGroupChat chatType = true →
      help_command rej chatType gid userId ownerId = []) ∧
    (∀ chatType, isGroupChat chatType = true →
      guide_command rej chatType gid = []) ∧
    (∀ userId ownerId memberStatus wl config,
      status_command rej gid userId ownerId memberStatus wl config = []) ∧
    (∀ chatType userId ownerId isGroupAdmin args benv, isGroupChat chatType = true →
      test_balance_all rej chatType gid userId ownerId isGroupAdmin args benv = []) ∧
    (∀ chatType userId msgText sessions config parseFloat saveOk,
      isGroupChat chatType = true →
      handle_setup_response rej chatType gid userId msgText sessions config
          parseFloat saveOk =
        { acts := [], sessions := sessions, config := config }) ∧
    (∀ senderId ownerId botId config udata removeOk newMembers,
      handle_new_member rej gid senderId ownerId botId config udata removeOk
        newMembers = []) := by
  refine ⟨?_, ?_, ?_, ?_, ?_, ?_, ?_, ?_⟩
  · intro userId ownerId
    simp [handle_group_start_command, hblocked]
  · intro chatType userId ownerId hct
    simp [start_command, hct, hblocked]
  · intro chatType userId ownerId hct
    simp [help_command, hct, hblocked]
  · intro chatType hct
    simp [guide_command, hct, hblocked]
  · intro userId ownerId memberStatus wl config
    simp [status_command, hblocked]
  · intro chatType userId ownerId isGroupAdmin args benv hct
    simp [test_balance_all, hct, hblocked]
  · intro chatType userId msgText sessions config parseFloat saveOk hct
    simp [handle_setup_response, hct, hblocked]
  · intro senderId ownerId botId config udata removeOk newMembers
    simp [handle_new_member, hblocked]

/-- C7 witness: every entry point evaluated on the struck-out group `gb`
returns no action. -/
theorem blocked_groups_silently_dropped_witness :
    is_group_blocked blockedStore "gb" = true ∧
    handle_group_start_command blockedStore "gb" "5" "9" = [] ∧
    start_command blockedStore "group" "gb" "5" "9" = [] ∧
    help_command blockedStore "supergroup" "gb" "5" "9" = [] ∧
    guide_command blockedStore "group" "gb" = [] ∧
    status_command blockedStore "gb" "5" "9" (Except.ok "administrator") []
      sampleConfigStore = [] ∧
    test_balance_all blockedStore "group" "gb" "5" "9" true ["w", "t"]
      etherscanOnlyEnv = [] ∧
    handle_setup_response blockedStore "group" "gb" "5" "0xabc" [] sampleConfigStore
        (fun _ => none) true =
      { acts := [], sessions := [], config := sampleConfigStore } ∧
    handle_new_member blockedStore "gb" "5" "9" "bot" sampleConfigStore
      takenWalletData (fun _ => true) ["6"] = [] := by
  have h := blocked_groups_silently_dropped blockedStore "gb" (by decide)
  exact ⟨by decide, h.1 "5" "9", h.2.1 "group" "5" "9" (by decide),
    h.2.2.1 "supergroup" "5" "9" (by decide), h.2.2.2.1 "group" (by decide),
    h.2.2.2.2.1 "5" "9" (Except.ok "administrator") [] sampleConfigStore,
    h.2.2.2.2.2.1 "group" "5" "9" true ["w", "t"] etherscanOnlyEnv (by decide),
    h.2.2.2.2.2.2.1 "group" "5" "0xabc" [] sampleConfigStore (fun _ => none) true
      (by decide),
    h.2.2.2.2.2.2.2 "5" "9" "bot" sampleConfigStore takenWalletData (fun _ => true)
      ["6"]⟩

/-! ## C6: the re-verification sweep -/

theorem groupEntry_set_other (ud : UserData) (gid uid uid' : String) (v : UserRec)
    (hne : uid ≠ uid') :
    groupEntry (dictSet ud gid (dictSet ((dictGet ud gid).getD []) uid' v)) gid uid =
      groupEntry ud gid uid := by
  unfold groupEntry
  rw [dictGet_dictSet_self]
  simp only [Option.getD_some]
  exact dictGet_dictSet_ne _ uid uid' v hne

theorem groupEntry_set_self (ud : UserData) (gid uid : String) (v : UserRec) :
    groupEntry (dictSet ud gid (dictSet ((dictGet ud gid).getD []) uid v)) gid uid =
      some v := by
  unfold groupEntry
  rw [dictGet_dictSet_self]
  simp only [Option.getD_some]
  exact dictGet_dictSet_self _ uid v

theorem verifyMembersLoop_saves (env : SweepEnv) (cfg : GroupConfig) (gid : String) :
    ∀ (l : List (String × UserRec)) (ud : UserData),
      (verifyMembersLoop env cfg gid l ud).saves.length =
        (verifyMembersLoop env cfg gid l ud).removedCount := by
  intro l
  induction l with
  | nil => intro ud; rfl
  | cons hd tl ih =>
    intro ud
    obtain ⟨uid, rec⟩ := hd
    simp only [verifyMembersLoop]
    by_cases ho : uid = env.ownerId
    · rw [if_pos ho]; exact ih ud
    rw [if_neg ho]
    by_cases hv : rec.verified
    · rw [if_pos hv]
      by_cases hb : verify_user_balance (env.benv rec.address) cfg
      · rw [if_pos hb]; exact ih ud
      rw [if_neg hb]
      by_cases hr : env.removeOk uid
      · rw [if_pos hr]
        exact congrArg (· + 1) (ih _)
      · rw [if_neg hr]; exact ih ud
    · rw [if_neg hv]; exact ih ud

theorem verifyMembersLoop_preserves (env : SweepEnv) (cfg : GroupConfig) (gid : String) :
    ∀ (l : List (String × UserRec)) (ud : UserData) (uid : String),
      uid ∉ l.map Prod.fst →
      groupEntry (verifyMembersLoop env cfg gid l ud).userData gid uid =
        groupEntry ud gid uid := by
  intro l
  induction l with
  | nil => intro ud uid _; rfl
  | cons hd tl ih =>
    intro ud uid h
    obtain ⟨uid', rec'⟩ := hd
    simp only [List.map_cons, List.mem_cons, not_or] at h
    obtain ⟨h1, h2⟩ := h
    simp only [verifyMembersLoop]
    by_cases ho : uid' = env.ownerId
    · rw [if_pos ho]; exact ih ud uid h2
    rw [if_neg ho]
    by_cases hv : rec'.verified
    · rw [if_pos hv]
      by_cases hb : verify_user_balance (env.benv rec'.address) cfg
      · rw [if_pos hb]; exact ih ud uid h2
      rw [if_neg hb]
      by_cases hr : env.removeOk uid'
      · rw [if_pos hr]
        exact (ih _ uid h2).trans (groupEntry_set_other ud gid uid uid' _ h1)
      · rw [if_neg hr]; exact ih ud uid h2
    · rw [if_neg hv]; exact ih ud uid h2

theorem verifyMembersLoop_spec (env : SweepEnv) (cfg : GroupConfig) (gid : String) :
    ∀ (l : List (String × UserRec)) (ud : UserData) (uid : String) (rec : UserRec),
      keysNodup l → (uid, rec) ∈ l → groupEntry ud gid uid = some rec →
      ((uid = env.ownerId →
        groupEntry (verifyMembersLoop env cfg gid l ud).userData gid uid = some rec) ∧
       (uid ≠ env.ownerId → rec.verified = false →
        groupEntry (verifyMembersLoop env cfg gid l ud).userData gid uid = some rec) ∧
       (uid ≠ env.ownerId → rec.verified = true →
        verify_user_balance (env.benv rec.address) cfg = true →
        groupEntry (verifyMembersLoop env cfg gid l ud).userData gid uid = some rec) ∧
       (uid ≠ env.ownerId → rec.verified = true →
        verify_user_balance (env.benv rec.address) cfg = false →
        env.removeOk uid = true →
        groupEntry (verifyMembersLoop env cfg gid l ud).userData gid uid =
          some { rec with verified := false } ∧
        uid ∈ (verifyMembersLoop env cfg gid l ud).bans) ∧
       (uid ≠ env.ownerId → rec.verified = true →
        verify_user_balance (env.benv rec.address) cfg = false →
        env.removeOk uid = false →
        groupEntry (verifyMembersLoop env cfg gid l ud).userData gid uid = some rec)) := by
  intro l
  induction l with
  | nil => intro ud uid rec _ hmem _; cases hmem
  | cons hd tl ih =>
    intro ud uid rec hnd hmem hentry
    obtain ⟨uid', rec'⟩ := hd
    have hnd' : keysNodup tl := (List.nodup_cons.mp hnd).2
    have hhead : uid' ∉ tl.map Prod.fst := by
      have := (List.nodup_cons.mp hnd).1
      simpa using this
    rcases List.mem_cons.mp hmem with heq | hmem'
    · -- the user under scrutiny is the head of the iteration list
      injection heq with huid hrec
      subst huid
      subst hrec
      refine ⟨?_, ?_, ?_, ?_, ?_⟩
      · intro ho
        simp only [verifyMembersLoop]
        rw [if_pos ho]
        exact (verifyMembersLoop_preserves env cfg gid tl ud uid hhead).trans hentry
      · intro ho hv
        simp only [verifyMembersLoop]
        rw [if_neg ho, if_neg (by simp [hv])]
        exact (verifyMembersLoop_preserves env cfg gid tl ud uid hhead).trans hentry
      · intro ho hv hb
        simp only [verifyMembersLoop]
        rw [if_neg ho, if_pos (by simp [hv]), if_pos hb]
        exact (verifyMembersLoop_preserves env cfg gid tl ud uid hhead).trans hentry
      · intro ho hv hb hr
        simp only [verifyMembersLoop]
        rw [if_neg ho, if_pos (by simp [hv]), if_neg (by simp [hb]), if_pos hr]
        constructor
        · exact (verifyMembersLoop_preserves env cfg gid tl _ uid hhead).trans
            (groupEntry_set_self ud gid uid _)
        · exact List.mem_cons_self uid _
      · intro ho hv hb hr
        simp only [verifyMembersLoop]
        rw [if_neg ho, if_pos (by simp [hv]), if_neg (by simp [hb]),
          if_neg (by simp [hr])]
        exact (verifyMembersLoop_preserves env cfg gid tl ud uid hhead).trans hentry
    · -- the user under scrutiny sits further down the iteration list
      have huid : uid ≠ uid' := by
        intro hcontra
        apply hhead
        subst hcontra
        exact List.mem_map.mpr ⟨(uid, rec), hmem', rfl⟩
      simp only [verifyMembersLoop]
      by_cases ho : uid' = env.ownerId
      · rw [if_pos ho]
        exact ih ud uid rec hnd' hmem' hentry
      rw [if_neg ho]
      by_cases hv : rec'.verified
      · rw [if_pos hv]
        by_cases hb : verify_user_balance (env.benv rec'.address) cfg
        · rw [if_pos hb]
          obtain ⟨c1, c2, c3, c4, c5⟩ := ih ud uid rec hnd' hmem' hentry
          exact ⟨c1, c2, c3, fun a b c d => ⟨(c4 a b c d).1, (c4 a b c d).2⟩, c5⟩
        rw [if_neg hb]
        by_cases hr : env.removeOk uid'
        · rw [if_pos hr]
          have hentry' :
              groupEntry (dictSet ud gid (dictSet ((dictGet ud gid).getD []) uid'
                { rec' with verified := false })) gid uid = some rec :=
            (groupEntry_set_other ud gid uid uid' _ huid).trans hentry
          obtain ⟨c1, c2, c3, c4, c5⟩ := ih _ uid rec hnd' hmem' hentry'
          exact ⟨c1, c2, c3,
            fun a b c d => ⟨(c4 a b c d).1, List.mem_cons_of_mem _ (c4 a b c d).2⟩, c5⟩
        · rw [if_neg hr]
          exact ih ud uid rec hnd' hmem' hentry
      · rw [if_neg hv]
        exact ih ud uid rec hnd' hmem' hentry

/-- C6: in a sweep over a group, the owner's record and every record that
is unverified or passes the balance re-check are left unchanged; every
non-owner verified record whose balance check fails and whose removal
call succeeds is kicked (ban recorded) and flipped to `verified=false`;
a failing removal call leaves that record unchanged without aborting the
sweep (every other user still receives exactly the treatment above); and
one save is persisted per removed user, never batched. -/
theorem sweep_flips_only_insufficient (env : SweepEnv) (cfg : GroupConfig)
    (gid : String) (ud : UserData) (gus : List (String × UserRec))
    (uid : String) (rec : UserRec)
    (hg : dictGet ud gid = some gus) (hnd : keysNodup gus)
    (hmem : (uid, rec) ∈ gus) :
    ((uid = env.ownerId →
      groupEntry (verify_all_members env cfg gid ud).userData gid uid = some rec) ∧
     (uid ≠ env.ownerId → rec.verified = false →
      groupEntry (verify_all_members env cfg gid ud).userData gid uid = some rec) ∧
     (uid ≠ env.ownerId → rec.verified = true →
      verify_user_balance (env.benv rec.address) cfg = true →
      groupEntry (verify_all_members env cfg gid ud).userData gid uid = some rec) ∧
     (uid ≠ env.ownerId → rec.verified = true →
      verify_user_balance (env.benv rec.address) cfg = false →
      env.removeOk uid = true →
      groupEntry (verify_all_members env cfg gid ud).userData gid uid =
        some { rec with verified := false } ∧
      uid ∈ (verify_all_members env cfg gid ud).bans) ∧
     (uid ≠ env.ownerId → rec.verified = true →
      verify_user_balance (env.benv rec.address) cfg = false →
      env.removeOk uid = false →
      groupEntry (verify_all_members env cfg gid ud).userData gid uid = some rec)) ∧
    (verify_all_members env cfg gid ud).saves.length =
      (verify_all_members env cfg gid ud).removedCount := by
  have hentry : groupEntry ud gid uid = some rec := by
    unfold groupEntry
    rw [hg]
    simp only [Option.getD_some]
    exact dictGet_of_mem_nodup gus uid rec hmem hnd
  have hrw : verify_all_members env cfg gid ud = verifyMembersLoop env cfg gid gus ud := by
    unfold verify_all_members
    rw [hg]
    rfl
  rw [hrw]
  exact ⟨verifyMembersLoop_spec env cfg gid gus ud uid rec hnd hmem hentry,
    verifyMembersLoop_saves env cfg gid gus ud⟩

/-- C6 witness: on the five-user fixture, user 2 (insufficient balance,
removal succeeds) is kicked and flipped while user 1 (sufficient
balance) and the owner are untouched; user 3's failing removal leaves
user 3 verified; and the number of saves equals the number of
removals. -/
theorem sweep_flips_only_insufficient_witness :
    groupEntry (verify_all_members sweepTestEnv sampleConfig "g" sweepData).userData
        "g" "2" =
      some { address := "0xbad", verified := false, lastVerified := 12,
             verificationTx := true } ∧
    "2" ∈ (verify_all_members sweepTestEnv sampleConfig "g" sweepData).bans ∧
    groupEntry (verify_all_members sweepTestEnv sampleConfig "g" sweepData).userData
        "g" "1" =
      some { address := "0xgood", verified := true, lastVerified := 11,
             verificationTx := true } ∧
    groupEntry (verify_all_members sweepTestEnv sampleConfig "g" sweepData).userData
        "g" "3" =
      some { address := "0xbad", verified := true, lastVerified := 13,
             verificationTx := true } ∧
    groupEntry (verify_all_members sweepTestEnv sampleConfig "g" sweepData).userData
        "g" "owner" =
      some { address := "0xbad", verified := true, lastVerified := 10,
             verificationTx := true } ∧
    (verify_all_members sweepTestEnv sampleConfig "g" sweepData).saves.length =
      (verify_all_members sweepTestEnv sampleConfig "g" sweepData).removedCount := by
  have h2 := sweep_flips_only_insufficient sweepTestEnv sampleConfig "g" sweepData
    sweepUsers "2"
    { address := "0xbad", verified := true, lastVerified := 12, verificationTx := true }
    rfl (by decide) (by decide)
  have h1 := sweep_flips_only_insufficient sweepTestEnv sampleConfig "g" sweepData
    sweepUsers "1"
    { address := "0xgood", verified := true, lastVerified := 11, verificationTx := true }
    rfl (by decide) (by decide)
  have h3 := sweep_flips_only_insufficient sweepTestEnv sampleConfig "g" sweepData
    sweepUsers "3"
    { address := "0xbad", verified := true, lastVerified := 13, verificationTx := true }
    rfl (by decide) (by decide)
  have ho := sweep_flips_only_insufficient sweepTestEnv sampleConfig "g" sweepData
    sweepUsers "owner"
    { address := "0xbad", verified := true, lastVerified := 10, verificationTx := true }
    rfl (by decide) (by decide)
  have hrm := h2.1.2.2.2.1 (by decide) (by decide) (by decide) (by decide)
  exact ⟨hrm.1, hrm.2,
    h1.1.2.2.1 (by decide) (by decide) (by decide),
    h3.1.2.2.2.2 (by decide) (by decide) (by decide) (by decide),
    ho.1.1 (by decide),
    h2.2⟩

end TokenGate
